import Mathlib

/-!
# Verification of the webpv backend core

Shallow embedding of the authentication / token-lifecycle subsystem
(`app/services/auth_service.py`, `app/api/auth.py`, `app/core/security.py`,
`app/core/config.py`, `app/db/firestore_client.py`) and of the route
recommendation engine (`app/services/route_service.py`).

Modelling conventions:
- Timestamps are integer seconds (UTC).  The naive/aware `datetime`
  normalisation in `validate_refresh_token` is absorbed by this single
  integer timeline.
- The Firestore collections are embedded as functions from document id to
  an optional record; `None` models an absent document.
- bcrypt verification (`verify_password`) is an oracle parameter
  `verify : String → String → Bool`.
- `secrets.token_urlsafe` / `uuid.uuid4` draws are environmental
  randomness; they are passed in as parameters (`gen`, an id stream `ids`).
- Python truthiness of optional row fields is made explicit per field type.
- Numeric row figures are carried as exact rationals.  The source evaluates
  the sales-drop percentage on driver-supplied machine numbers (IEEE-754
  doubles for int/float columns, `Decimal` for decimal columns), whose final
  digit can differ from the exact-rational evaluation (e.g. the double
  pipeline yields 28 where the exact value of `int(((100-71)/100)*100)` is
  29).  No theorem below depends on those digits: the drop-qualification
  threshold `c < p * 0.8` itself is exact for representable values.
-/

namespace WebPV

/-- Integer seconds since the epoch (UTC). -/
abbrev Time := Int

/-- `app/core/config.py` — the settings fields the core logic reads. -/
structure Settings where
  RATE_LIMIT_ENABLED : Bool
  RATE_LIMIT_PER_MINUTE : Nat
  RATE_LIMIT_LOCKOUT_MINUTES : Nat
  ACCESS_TOKEN_EXPIRE_MINUTES : Nat
  REFRESH_TOKEN_EXPIRE_DAYS : Nat
deriving Repr, DecidableEq

/-- Default values from `Settings` in `app/core/config.py`. -/
def settings : Settings :=
  { RATE_LIMIT_ENABLED := true
    RATE_LIMIT_PER_MINUTE := 5
    RATE_LIMIT_LOCKOUT_MINUTES := 15
    ACCESS_TOKEN_EXPIRE_MINUTES := 60
    REFRESH_TOKEN_EXPIRE_DAYS := 7 }

/-- The module-level dictionaries `_login_attempts` and `_locked_accounts`
of `auth_service.py`.  An absent dictionary key is `[]` / `none`
(observationally equivalent for every operation performed on them). -/
structure RateState where
  login_attempts : String → List Time
  locked_accounts : String → Option Time

/-- Result of `check_rate_limit`: either the call returns (with the possibly
mutated module state), or it raises HTTP 429 with a `retryAfter` and a
message (again with the mutated state). -/
inductive RateCheck where
  | allowed (st : RateState)
  | limited (retryAfter : Int) (message : String) (st : RateState)

def RateCheck.isLimited : RateCheck → Bool
  | .allowed _ => false
  | .limited _ _ _ => true

def RateCheck.isAllowed : RateCheck → Bool
  | .allowed _ => true
  | .limited _ _ _ => false

def RateCheck.state : RateCheck → RateState
  | .allowed st => st
  | .limited _ _ st => st

def RateCheck.retry : RateCheck → Option Int
  | .allowed _ => none
  | .limited r _ _ => some r

/-- Second half of `check_rate_limit` (from `# Check rate limit` on):
prune attempts outside the trailing window, then compare with the
threshold; on breach install the lock and raise. -/
def check_rate_limit_window (s : Settings) (st : RateState) (now : Time)
    (user_id : String) : RateCheck :=
  let cutoff : Time := now - (s.RATE_LIMIT_LOCKOUT_MINUTES : Int) * 60
  let pruned := (st.login_attempts user_id).filter (fun attempt => cutoff < attempt)
  let st' : RateState :=
    { st with login_attempts := fun u => if u = user_id then pruned else st.login_attempts u }
  if s.RATE_LIMIT_PER_MINUTE ≤ pruned.length then
    .limited ((s.RATE_LIMIT_LOCKOUT_MINUTES : Int) * 60)
      ("Demasiados intentos fallidos. Cuenta bloqueada por "
        ++ toString s.RATE_LIMIT_LOCKOUT_MINUTES ++ " minutos")
      { st' with locked_accounts := fun u =>
          if u = user_id then some (now + (s.RATE_LIMIT_LOCKOUT_MINUTES : Int) * 60)
          else st.locked_accounts u }
  else
    .allowed st'

/-- `check_rate_limit(user_id)` of `auth_service.py`. -/
def check_rate_limit (s : Settings) (st : RateState) (now : Time)
    (user_id : String) : RateCheck :=
  if s.RATE_LIMIT_ENABLED = false then .allowed st
  else
    match st.locked_accounts user_id with
    | some locked_until =>
      if now < locked_until then
        let remaining := locked_until - now
        .limited remaining
          ("Cuenta bloqueada temporalmente. Intente nuevamente en "
            ++ toString (remaining.fdiv 60) ++ " minutos")
          st
      else
        -- Lock expired: evict it and drop the recorded attempts.
        check_rate_limit_window s
          { login_attempts := fun u => if u = user_id then [] else st.login_attempts u
            locked_accounts := fun u => if u = user_id then none else st.locked_accounts u }
          now user_id
    | none => check_rate_limit_window s st now user_id

/-- `record_failed_attempt(user_id)` of `auth_service.py`. -/
def record_failed_attempt (st : RateState) (now : Time) (user_id : String) : RateState :=
  { st with login_attempts := fun u =>
      if u = user_id then st.login_attempts user_id ++ [now] else st.login_attempts u }

/-- `clear_failed_attempts(user_id)` of `auth_service.py`. -/
def clear_failed_attempts (st : RateState) (user_id : String) : RateState :=
  { st with login_attempts := fun u => if u = user_id then [] else st.login_attempts u }

/-- `UserInDB` of `app/schemas/auth.py`. -/
structure UserInDB where
  id : String
  nombre : String
  rol : String
  password_hash : String
  ruta : String
  activo : Bool
  bloqueado : Bool
  intentos_fallidos : Int
deriving Repr, DecidableEq

/-- `User` of `app/schemas/auth.py` (public profile). -/
structure User where
  id : String
  nombre : String
  rol : String
deriving Repr, DecidableEq

/-- The `users` Firestore collection, keyed by document id. -/
abbrev Users := String → Option UserInDB

/-- `update_user(user_id, updates)` of `firestore_client.py`, specialised to
the field updates the Authenticator performs: merge `f` into the stored
document. -/
def update_user (users : Users) (user_id : String) (f : UserInDB → UserInDB) : Users :=
  fun u => if u = user_id then (users u).map f else users u

/-- Typed failures raised by `authenticate_user`. -/
inductive AuthError where
  | rateLimited (retryAfter : Int) (message : String)
  | accountBlocked (message : String)
deriving Repr, DecidableEq

/-- Result of `authenticate_user`: the returned value (`some user` on
success, `none` for the Python `return None` paths) or a raised error,
together with the post-state of the user store and the rate-limit maps. -/
structure AuthResult where
  result : Except AuthError (Option UserInDB)
  users : Users
  rate : RateState

/-- `authenticate_user(user_id, password)` of `auth_service.py`.
`verify` is the bcrypt `verify_password` oracle. -/
def authenticate_user (s : Settings) (verify : String → String → Bool)
    (users : Users) (rate : RateState) (now : Time)
    (user_id password : String) : AuthResult :=
  match check_rate_limit s rate now user_id with
  | .limited retry msg rate' => ⟨.error (.rateLimited retry msg), users, rate'⟩
  | .allowed rate' =>
    match users user_id with
    | none => ⟨.ok none, users, record_failed_attempt rate' now user_id⟩
    | some user =>
      if user.bloqueado then
        ⟨.error (.accountBlocked "Cuenta bloqueada. Contacte al administrador"), users, rate'⟩
      else if user.activo = false then
        ⟨.error (.accountBlocked "Cuenta inactiva. Contacte al administrador"), users, rate'⟩
      else if verify password user.password_hash = false then
        let rate'' := record_failed_attempt rate' now user_id
        let users1 := update_user users user_id
          (fun u => { u with intentos_fallidos := user.intentos_fallidos + 1 })
        let users2 :=
          if 5 ≤ user.intentos_fallidos + 1 then
            update_user users1 user_id (fun u => { u with bloqueado := true })
          else users1
        ⟨.ok none, users2, rate''⟩
      else
        let rate'' := clear_failed_attempts rate' user_id
        let users' :=
          if 0 < user.intentos_fallidos then
            update_user users user_id (fun u => { u with intentos_fallidos := 0 })
          else users
        ⟨.ok (some user), users', rate''⟩

/-- Claims of a signed access JWT, as assembled by `create_access_token` in
`app/core/security.py` for the data passed by `create_user_tokens`
(signing by the HS256 secret is abstracted: the token is its claims). -/
structure AccessClaims where
  sub : String
  rol : String
  ruta : String
  exp : Time
  iat : Time
  type : String
deriving Repr, DecidableEq

/-- `create_access_token(data)` of `app/core/security.py`, on the claim
dictionary built by `create_user_tokens` (no custom `expires_delta`). -/
def create_access_token (s : Settings) (now : Time) (sub rol ruta : String) : AccessClaims :=
  { sub := sub, rol := rol, ruta := ruta
    exp := now + (s.ACCESS_TOKEN_EXPIRE_MINUTES : Int) * 60
    iat := now
    type := "access" }

/-- `get_refresh_token_expiration()` of `app/core/security.py`:
`utcnow() + timedelta(days=REFRESH_TOKEN_EXPIRE_DAYS)`. -/
def get_refresh_token_expiration (s : Settings) (now : Time) : Time :=
  now + (s.REFRESH_TOKEN_EXPIRE_DAYS : Int) * 86400

/-- A document of the `refresh_tokens` collection, as written by
`save_refresh_token` in `firestore_client.py`. -/
structure RefreshTokenRecord where
  user_id : String
  expires_at : Time
  created_at : Time
  revoked : Bool
deriving Repr, DecidableEq

/-- The `refresh_tokens` Firestore collection, keyed by the token string. -/
abbrev TokenStore := String → Option RefreshTokenRecord

/-- `save_refresh_token(token, user_id, expires_at)` of `firestore_client.py`. -/
def save_refresh_token (store : TokenStore) (token user_id : String)
    (expires_at now : Time) : TokenStore :=
  fun t =>
    if t = token then
      some { user_id := user_id, expires_at := expires_at, created_at := now, revoked := false }
    else store t

/-- The `detail` payload plus status code of an `HTTPException` raised by the
auth endpoints / services. -/
structure ApiError where
  status_code : Nat
  error : String
  message : String
deriving Repr, DecidableEq

/-- `create_user_tokens(user)` of `auth_service.py`.  `gen` is the draw of
`secrets.token_urlsafe(32)` (`generate_refresh_token`).  Returns the tuple
`(access_token, refresh_token, expires_in_seconds)` and the post-state of
the `refresh_tokens` collection. -/
def create_user_tokens (s : Settings) (store : TokenStore) (now : Time)
    (gen : String) (user : UserInDB) : AccessClaims × String × Int × TokenStore :=
  let access_token := create_access_token s now user.id user.rol user.ruta
  let refresh_token := gen
  let refresh_expires_at := get_refresh_token_expiration s now
  let store' := save_refresh_token store refresh_token user.id refresh_expires_at now
  (access_token, refresh_token, (s.ACCESS_TOKEN_EXPIRE_MINUTES : Int) * 60, store')

/-- `validate_refresh_token(token)` of `auth_service.py`. -/
def validate_refresh_token (store : TokenStore) (users : Users) (now : Time)
    (token : String) : Except ApiError User :=
  match store token with
  | none =>
    .error ⟨401, "INVALID_CREDENTIALS", "Token de actualización inválido"⟩
  | some token_data =>
    if token_data.revoked then
      .error ⟨401, "INVALID_CREDENTIALS", "Token de actualización revocado"⟩
    else if token_data.expires_at < now then
      -- `if now > expires_at` after naive/aware normalisation
      .error ⟨401, "INVALID_CREDENTIALS", "Token de actualización expirado"⟩
    else
      match users token_data.user_id with
      | none => .error ⟨401, "INVALID_CREDENTIALS", "Usuario no encontrado"⟩
      | some user_data => .ok ⟨user_data.id, user_data.nombre, user_data.rol⟩

/-- `LoginResponse` of `app/schemas/auth.py`. -/
structure LoginResponse where
  token : AccessClaims
  refreshToken : String
  expiresIn : Int
  user : User
deriving Repr, DecidableEq

/-- `RefreshTokenResponse` of `app/schemas/auth.py`. -/
structure RefreshTokenResponse where
  token : AccessClaims
  expiresIn : Int
deriving Repr, DecidableEq

/-- Result of the `POST /login` endpoint: the HTTP response (body or raised
`HTTPException`) together with the post-states of the stores it may touch. -/
structure LoginResult where
  response : Except ApiError LoginResponse
  users : Users
  rate : RateState
  tokens : TokenStore

/-- The `login` endpoint of `app/api/auth.py`: `authenticate_user`, the
`None → 401 INVALID_CREDENTIALS` mapping, then `create_user_tokens`. -/
def login (s : Settings) (verify : String → String → Bool)
    (users : Users) (rate : RateState) (store : TokenStore) (now : Time)
    (gen : String) (req_id req_password : String) : LoginResult :=
  match authenticate_user s verify users rate now req_id req_password with
  | ⟨.error (.rateLimited _retry msg), users', rate'⟩ =>
    ⟨.error ⟨429, "RATE_LIMIT_EXCEEDED", msg⟩, users', rate', store⟩
  | ⟨.error (.accountBlocked msg), users', rate'⟩ =>
    ⟨.error ⟨403, "ACCOUNT_BLOCKED", msg⟩, users', rate', store⟩
  | ⟨.ok none, users', rate'⟩ =>
    ⟨.error ⟨401, "INVALID_CREDENTIALS", "Credenciales inválidas"⟩, users', rate', store⟩
  | ⟨.ok (some user), users', rate'⟩ =>
    let (access_token, refresh_token, expires_in, store') :=
      create_user_tokens s store now gen user
    ⟨.ok { token := access_token, refreshToken := refresh_token,
           expiresIn := expires_in
           user := ⟨user.id, user.nombre, user.rol⟩ },
     users', rate', store'⟩

/-- The `refresh_token` endpoint of `app/api/auth.py`:
`validate_refresh_token`, re-fetch the full user record, then
`create_user_tokens` keeping only the access token.  The re-fetch failing
(`UserInDB(**None)` raising `TypeError`) surfaces as the error-handler's
500; it is unreachable in the sequential model since validation just
resolved the user. -/
def refresh_token (s : Settings) (store : TokenStore) (users : Users)
    (now : Time) (gen : String) (req_refreshToken : String) :
    Except ApiError (RefreshTokenResponse × TokenStore) :=
  match validate_refresh_token store users now req_refreshToken with
  | .error e => .error e
  | .ok user =>
    match users user.id with
    | none => .error ⟨500, "INTERNAL_ERROR", "Error interno del servidor. Intente nuevamente"⟩
    | some user_db =>
      let (access_token, _, expires_in, store') := create_user_tokens s store now gen user_db
      .ok ({ token := access_token, expiresIn := expires_in }, store')

/-! ## Route recommendation engine (`app/services/route_service.py`) -/

/-- `Coordenadas` of `app/schemas/route.py`; the float literals of
`route_service.py` are carried as rationals. -/
structure Coordenadas where
  lat : ℚ
  lng : ℚ
deriving Repr, DecidableEq

def DEFAULT_LAT : ℚ := 194326 / 10000

def DEFAULT_LNG : ℚ := -991332 / 10000

/-- A row returned by `execute_hoja_visita_query`, restricted to the fields
`route_service.py` reads.  `none` models an absent key (or SQL `NULL`);
numeric figures are carried as rationals. -/
structure Row where
  CLIENTE_ID : Option String
  NOMBRE_CLIENTE : Option String
  GECS : Option String
  CTECUMPLIDO : Option Int
  IDSHOP : Option String
  CERVEZA_SANT : Option ℚ
  CERVEZA_SACT : Option ℚ
  MILLER : Option ℚ
  INDIO : Option ℚ
  TECATE : Option ℚ
  XX : Option ℚ
  DESCLP : Option String
  ENFRIADORES : Option Int
deriving Repr, DecidableEq

/-- Python truthiness of an optional string: absent and `""` are falsy. -/
def truthyStr : Option String → Bool
  | none => false
  | some s => s ≠ ""

/-- Python truthiness of an optional integer: absent and `0` are falsy. -/
def truthyInt : Option Int → Bool
  | none => false
  | some n => n ≠ 0

/-- Python truthiness of an optional numeric figure: absent and `0` are falsy. -/
def truthyRat : Option ℚ → Bool
  | none => false
  | some q => q ≠ 0

/-- Python `int()` on an exact rational: truncation toward zero
(`num.tdiv den` since the denominator is positive).  This idealises the
source, which applies `int()` to a machine-arithmetic value; the two can
differ in the last digit (see the header note). -/
def pyInt (q : ℚ) : Int :=
  q.num.tdiv q.den

/-- `Cliente` of `app/schemas/route.py`. -/
structure Cliente where
  id : String
  codigo : String
  nombre : String
  direccion : Option String
  coordenadas : Coordenadas
  segmento : String
  razonVisita : String
  prioridad : String
deriving Repr, DecidableEq

/-- The defaulted segment of `map_to_cliente`:
`row.get("GECS", "BRONCE")`, then empty-string fallback. -/
def segmento_of (row : Row) : String :=
  let gecs := row.GECS.getD "BRONCE"
  if gecs = "" then "BRONCE" else gecs

/-- `_generate_razon_visita(row)` of `route_service.py`. -/
def generate_razon_visita (row : Row) : String :=
  let gecs := row.GECS.getD "BRONCE"
  let ctecumplido := row.CTECUMPLIDO.getD 0
  if truthyStr row.IDSHOP then "Inscripción programa HEI"
  else if ctecumplido = 0 then "Recuperación de ventas"
  else if truthyInt row.ENFRIADORES then "Seguimiento de enfriadores"
  else if truthyStr row.DESCLP then "Promoción activa - Lona"
  else "Visita programada - Cliente " ++ gecs

/-- `map_to_cliente(row)` of `route_service.py`. -/
def map_to_cliente (row : Row) : Cliente :=
  let cliente_id := row.CLIENTE_ID.getD ""
  let nombre := row.NOMBRE_CLIENTE.getD "Cliente Sin Nombre"
  let gecs := segmento_of row
  let ctecumplido := row.CTECUMPLIDO.getD 0
  let prioridad :=
    if ctecumplido = 1 then "baja"
    else if gecs = "PLATINO" ∨ gecs = "TITANIO" then "alta"
    else if truthyStr row.IDSHOP then "alta"
    else "media"
  { id := cliente_id
    codigo := cliente_id
    nombre := nombre
    direccion := none
    coordenadas := ⟨DEFAULT_LAT, DEFAULT_LNG⟩
    segmento := gecs
    razonVisita := generate_razon_visita row
    prioridad := prioridad }

/-- `Recomendacion` of `app/schemas/route.py`. -/
structure Recomendacion where
  id : String
  clienteId : String
  tipo : String
  prioridad : String
  titulo : String
  descripcion : String
  razonVisita : String
  sku : Option String
deriving Repr, DecidableEq

/-- Rule 1 of `generate_recomendaciones`: HEI program. -/
def heiRec (cliente : Cliente) : Recomendacion :=
  { id := "", clienteId := cliente.id, tipo := "informacion", prioridad := "alta"
    titulo := "Programa HEI disponible"
    descripcion := "Cliente elegible para programa Heineken. Explicar beneficios y proceso de inscripción."
    razonVisita := "Oportunidad de crecimiento con programa HEI", sku := none }

/-- Rule 2 of `generate_recomendaciones`: volume recovery on a sales drop.
The embedded percentage is the exact-rational idealisation of the source's
machine-arithmetic `int(((sant - sact) / sant) * 100)` (see the header
note on machine numerics). -/
def dropRec (cliente : Cliente) (cerveza_sant cerveza_sact : ℚ) : Recomendacion :=
  let drop_percentage := pyInt ((cerveza_sant - cerveza_sact) / cerveza_sant * 100)
  { id := "", clienteId := cliente.id, tipo := "venta", prioridad := "alta"
    titulo := "Recuperar ventas (" ++ toString drop_percentage ++ "% de caída)"
    descripcion := "Las ventas han caído de " ++ toString cerveza_sant ++ " a "
      ++ toString cerveza_sact ++ " cartones. Investigar causas y ofrecer soluciones."
    razonVisita := "Recuperación de volumen de ventas", sku := none }

/-- Rule 3 of `generate_recomendaciones`: maintain volume. -/
def maintainRec (cliente : Cliente) : Recomendacion :=
  { id := "", clienteId := cliente.id, tipo := "venta", prioridad := "media"
    titulo := "Mantener volumen actual"
    descripcion := "Cliente cumpliendo objetivo (" ++ cliente.segmento
      ++ "). Reforzar relación y asegurar continuidad."
    razonVisita := "Seguimiento de cliente cumplido", sku := none }

/-- Rule 4 of `generate_recomendaciones`: per-product cross-sell. -/
def productRec (cliente : Cliente) (sku titulo descripcion razon : String) : Recomendacion :=
  { id := "", clienteId := cliente.id, tipo := "venta", prioridad := "media"
    titulo := titulo, descripcion := descripcion, razonVisita := razon, sku := some sku }

/-- Rule 5 of `generate_recomendaciones`: active lona promotion. -/
def promoRec (cliente : Cliente) : Recomendacion :=
  { id := "", clienteId := cliente.id, tipo := "merchandising", prioridad := "alta"
    titulo := "Promoción Lona activa"
    descripcion := "Cliente tiene promoción de lona activa. Verificar cumplimiento y material POP."
    razonVisita := "Seguimiento de promoción", sku := none }

/-- Rule 6 of `generate_recomendaciones`: cooler follow-up. -/
def coolerRec (cliente : Cliente) : Recomendacion :=
  { id := "", clienteId := cliente.id, tipo := "merchandising", prioridad := "media"
    titulo := "Seguimiento de enfriadores"
    descripcion := "Cliente tiene enfriadores. Verificar funcionamiento y limpieza."
    razonVisita := "Mantenimiento de activos", sku := none }

/-- The sequential rule body of `generate_recomendaciones(cliente, row)`,
before uuid assignment: each appended block in source order. -/
def generate_core (cliente : Cliente) (row : Row) : List Recomendacion :=
  (if truthyStr row.IDSHOP then [heiRec cliente] else [])
  ++ (let cerveza_sant := row.CERVEZA_SANT.getD 0
      let cerveza_sact := row.CERVEZA_SACT.getD 0
      if 0 < cerveza_sant ∧ cerveza_sact < cerveza_sant * (4 / 5) then
        [dropRec cliente cerveza_sant cerveza_sact]
      else if row.CTECUMPLIDO = some 1 then [maintainRec cliente]
      else [])
  ++ (if truthyRat row.MILLER ∧ 0 < row.MILLER.getD 0 then
        [productRec cliente "MILLER" "Ampliar portafolio Miller"
          "Cliente compra Miller High Life. Ofrecer otras presentaciones o productos premium."
          "Oportunidad de cross-selling"]
      else [])
  ++ (if truthyRat row.INDIO ∧ 0 < row.INDIO.getD 0 then
        [productRec cliente "INDIO" "Incrementar Indio"
          "Cliente compra Indio. Proponer promociones o incrementar facing."
          "Oportunidad de crecimiento en marca Indio"]
      else [])
  ++ (if truthyRat row.TECATE ∧ 0 < row.TECATE.getD 0 then
        [productRec cliente "TECATE" "Reforzar Tecate"
          "Cliente compra Tecate. Verificar inventario y proponer volumen adicional."
          "Oportunidad en marca Tecate"]
      else [])
  ++ (if truthyRat row.XX ∧ 0 < row.XX.getD 0 then
        [productRec cliente "XX" "Promover XX Lager"
          "Cliente compra XX Lager. Explorar oportunidades de crecimiento."
          "Oportunidad en marca XX"]
      else [])
  ++ (if truthyStr row.DESCLP then [promoRec cliente] else [])
  ++ (if truthyInt row.ENFRIADORES then [coolerRec cliente] else [])

/-- Assign the `str(uuid.uuid4())` draws, in emission order, from the
stream `ids` starting at index `k`. -/
def assign_ids (ids : Nat → String) (k : Nat) : List Recomendacion → List Recomendacion
  | [] => []
  | r :: rs => { r with id := ids k } :: assign_ids ids (k + 1) rs

/-- `generate_recomendaciones(cliente, row)` of `route_service.py`; `ids` is
the stream of uuid draws, one per appended recommendation. -/
def generate_recomendaciones (ids : Nat → String) (cliente : Cliente) (row : Row) :
    List Recomendacion :=
  assign_ids ids 0 (generate_core cliente row)

/-- The fields of a recommendation the claims reason about (uuid-free). -/
def recSig (r : Recomendacion) : String × String × String :=
  (r.tipo, r.prioridad, r.titulo)

/-! ## Helper lemmas -/

theorem recSig_set_id (r : Recomendacion) (x : String) :
    recSig { r with id := x } = recSig r := rfl

theorem assign_ids_map_recSig (ids : Nat → String) (k : Nat) (l : List Recomendacion) :
    (assign_ids ids k l).map recSig = l.map recSig := by
  induction l generalizing k with
  | nil => rfl
  | cons r rs ih => simp [assign_ids, recSig_set_id, ih]

theorem map_ite_singleton {α β : Type} (f : α → β) (c : Prop) [Decidable c] (x : α) :
    (if c then [x] else []).map f = if c then [f x] else [] := by
  split <;> simp

theorem countP_ite_singleton {α : Type} (p : α → Bool) (c : Prop) [Decidable c] (x : α)
    (h : p x = false) :
    ((if c then [x] else []).countP p) = 0 := by
  split <;> simp [List.countP_cons, h]

theorem count_ite_singleton_ne {α : Type} [BEq α] (y : α) (c : Prop) [Decidable c]
    (x : α) (h : (x == y) = false) :
    ((if c then [x] else []).count y) = 0 := by
  split <;> simp [List.count_cons, h]

/-! ## C8 — `map_to_cliente`: segment default and priority rule -/

/-- C8: `map_to_cliente` defaults the segment to "BRONCE" when the GECS
field is absent or empty, and assigns priority by first match:
target met (`CTECUMPLIDO == 1`) → "baja"; else segment PLATINO or
TITANIO → "alta"; else shop-program id present → "alta"; else "media". -/
theorem map_to_cliente_spec (row : Row) :
    ((row.GECS = none ∨ row.GECS = some "") → (map_to_cliente row).segmento = "BRONCE")
    ∧ (row.CTECUMPLIDO.getD 0 = 1 → (map_to_cliente row).prioridad = "baja")
    ∧ (row.CTECUMPLIDO.getD 0 ≠ 1 →
        (segmento_of row = "PLATINO" ∨ segmento_of row = "TITANIO") →
        (map_to_cliente row).prioridad = "alta")
    ∧ (row.CTECUMPLIDO.getD 0 ≠ 1 →
        ¬(segmento_of row = "PLATINO" ∨ segmento_of row = "TITANIO") →
        truthyStr row.IDSHOP = true →
        (map_to_cliente row).prioridad = "alta")
    ∧ (row.CTECUMPLIDO.getD 0 ≠ 1 →
        ¬(segmento_of row = "PLATINO" ∨ segmento_of row = "TITANIO") →
        truthyStr row.IDSHOP = false →
        (map_to_cliente row).prioridad = "media")
    ∧ (map_to_cliente row).segmento = segmento_of row := by
  refine ⟨?_, ?_, ?_, ?_, ?_, rfl⟩
  · rintro (h | h) <;> simp [map_to_cliente, segmento_of, h]
  · intro h
    simp [map_to_cliente, h]
  · intro h1 h2
    simp [map_to_cliente, h1, h2]
  · intro h1 h2 h3
    simp [map_to_cliente, h1, h2, h3]
  · intro h1 h2 h3
    simp [map_to_cliente, h1, h2, h3]

/-- Witness for C8 at a concrete row: absent segment, target not met, no
shop program. -/
theorem map_to_cliente_spec_witness :
    (map_to_cliente
      { CLIENTE_ID := some "C7", NOMBRE_CLIENTE := some "Tienda Uno", GECS := none
        CTECUMPLIDO := some 0, IDSHOP := none, CERVEZA_SANT := none, CERVEZA_SACT := none
        MILLER := none, INDIO := none, TECATE := none, XX := none, DESCLP := none
        ENFRIADORES := none }).segmento = "BRONCE"
    ∧ (map_to_cliente
      { CLIENTE_ID := some "C7", NOMBRE_CLIENTE := some "Tienda Uno", GECS := none
        CTECUMPLIDO := some 0, IDSHOP := none, CERVEZA_SANT := none, CERVEZA_SACT := none
        MILLER := none, INDIO := none, TECATE := none, XX := none, DESCLP := none
        ENFRIADORES := none }).prioridad = "media" :=
  ⟨(map_to_cliente_spec _).1 (Or.inl rfl),
   (map_to_cliente_spec _).2.2.2.2.1 (by decide) (by decide) (by decide)⟩

/-! ## Shared demo fixtures for the authentication witnesses -/

/-- A rate-limit state with no recorded failures and no locks. -/
def demo_rate : RateState :=
  { login_attempts := fun _ => [], locked_accounts := fun _ => none }

def demo_user : UserInDB :=
  { id := "u0000001", nombre := "Ana", rol := "asesor", password_hash := "h"
    ruta := "001", activo := true, bloqueado := false, intentos_fallidos := 0 }

def demo_users : Users :=
  fun u => if u = "u0000001" then some demo_user else none

/-! ## C4 — blocked / inactive users are rejected before verification -/

/-- C4: with the rate limiter allowing the call, a user record with
`bloqueado = true`, or one with `activo = false`, makes
`authenticate_user` raise `AccountBlocked`, and the entire result is
independent of the password and of the verification oracle (password
verification is never executed). -/
theorem authenticate_blocked_or_inactive (s : Settings)
    (verify verify2 : String → String → Bool) (users : Users) (rate : RateState)
    (now : Time) (user_id password password2 : String) (u : UserInDB)
    (hallow : (check_rate_limit s rate now user_id).isAllowed = true)
    (hu : users user_id = some u)
    (hba : u.bloqueado = true ∨ u.activo = false) :
    (∃ msg, (authenticate_user s verify users rate now user_id password).result
        = .error (.accountBlocked msg))
    ∧ authenticate_user s verify users rate now user_id password
        = authenticate_user s verify2 users rate now user_id password2 := by
  cases hcheck : check_rate_limit s rate now user_id with
  | limited r m st =>
    rw [hcheck] at hallow
    simp [RateCheck.isAllowed] at hallow
  | allowed st =>
    rcases hba with hb | ha
    · exact ⟨⟨"Cuenta bloqueada. Contacte al administrador",
        by simp [authenticate_user, hcheck, hu, hb]⟩,
        by simp [authenticate_user, hcheck, hu, hb]⟩
    · by_cases hb : u.bloqueado
      · exact ⟨⟨"Cuenta bloqueada. Contacte al administrador",
          by simp [authenticate_user, hcheck, hu, hb]⟩,
          by simp [authenticate_user, hcheck, hu, hb]⟩
      · exact ⟨⟨"Cuenta inactiva. Contacte al administrador",
          by simp [authenticate_user, hcheck, hu, hb, ha]⟩,
          by simp [authenticate_user, hcheck, hu, hb, ha]⟩

def c4_users : Users :=
  fun u => if u = "u0000001" then some { demo_user with bloqueado := true } else none

/-- Witness for C4: a blocked user with two different passwords and two
different oracles yields the same `AccountBlocked` result. -/
theorem authenticate_blocked_or_inactive_witness :
    (∃ msg, (authenticate_user settings (fun _ _ => true) c4_users demo_rate 0
        "u0000001" "pw").result = .error (.accountBlocked msg))
    ∧ authenticate_user settings (fun _ _ => true) c4_users demo_rate 0 "u0000001" "pw"
      = authenticate_user settings (fun _ _ => false) c4_users demo_rate 0 "u0000001" "otra" :=
  authenticate_blocked_or_inactive settings (fun _ _ => true) (fun _ _ => false)
    c4_users demo_rate 0 "u0000001" "pw" "otra" { demo_user with bloqueado := true }
    (by decide) (by decide) (Or.inl rfl)

/-! ## C3 — wrong password increments the persisted counter, blocks at 5 -/

/-- C3: with the rate limiter allowing the call, an existing, active,
non-blocked user with a wrong password gets `None` back, the persisted
`intentos_fallidos` counter increments by exactly 1, and the persisted
`bloqueado` flag becomes true exactly when the new counter reaches 5;
in particular the attempt taking the counter from 4 to 5 blocks the
account. -/
theorem authenticate_wrong_password (s : Settings) (verify : String → String → Bool)
    (users : Users) (rate : RateState) (now : Time) (user_id password : String)
    (u : UserInDB)
    (hallow : (check_rate_limit s rate now user_id).isAllowed = true)
    (hu : users user_id = some u)
    (hb : u.bloqueado = false) (ha : u.activo = true)
    (hv : verify password u.password_hash = false) :
    (authenticate_user s verify users rate now user_id password).result = .ok none
    ∧ (authenticate_user s verify users rate now user_id password).users user_id
        = some { u with intentos_fallidos := u.intentos_fallidos + 1
                        bloqueado := decide (5 ≤ u.intentos_fallidos + 1) }
    ∧ (u.intentos_fallidos = 4 →
        (authenticate_user s verify users rate now user_id password).users user_id
          = some { u with intentos_fallidos := 5, bloqueado := true }) := by
  cases hcheck : check_rate_limit s rate now user_id with
  | limited r m st =>
    rw [hcheck] at hallow
    simp [RateCheck.isAllowed] at hallow
  | allowed st =>
    have hmain : (authenticate_user s verify users rate now user_id password).users user_id
        = some { u with intentos_fallidos := u.intentos_fallidos + 1
                        bloqueado := decide (5 ≤ u.intentos_fallidos + 1) } := by
      obtain ⟨uid, nom, rolu, ph, ru, act, blo, inte⟩ := u
      simp only at hb ha hv
      subst hb
      by_cases h5 : 5 ≤ inte + 1
      · simp [authenticate_user, hcheck, hu, ha, hv, h5, update_user]
      · simp [authenticate_user, hcheck, hu, ha, hv, h5, update_user]
    refine ⟨by simp [authenticate_user, hcheck, hu, hb, ha, hv], hmain, ?_⟩
    intro h4
    rw [hmain]
    simp [h4]

def c3_users : Users :=
  fun u => if u = "u0000001" then some { demo_user with intentos_fallidos := 4 } else none

/-- Witness for C3: a user at 4 failed attempts supplies a wrong password;
the call returns `None`, the counter becomes 5 and the account is
persisted as blocked. -/
theorem authenticate_wrong_password_witness :
    (authenticate_user settings (fun _ _ => false) c3_users demo_rate 0
        "u0000001" "mala").result = .ok none
    ∧ (authenticate_user settings (fun _ _ => false) c3_users demo_rate 0
        "u0000001" "mala").users "u0000001"
      = some { demo_user with intentos_fallidos := 5, bloqueado := true } :=
  ⟨(authenticate_wrong_password settings (fun _ _ => false) c3_users demo_rate 0
      "u0000001" "mala" { demo_user with intentos_fallidos := 4 }
      (by decide) (by decide) rfl rfl rfl).1,
   (authenticate_wrong_password settings (fun _ _ => false) c3_users demo_rate 0
      "u0000001" "mala" { demo_user with intentos_fallidos := 4 }
      (by decide) (by decide) rfl rfl rfl).2.2 rfl⟩

/-! ## C9 — no user-enumeration through the login response -/

/-- C9: a login attempt for a nonexistent user id and a login attempt with a
wrong password for an existing, active, non-blocked user both make
`authenticate_user` return `None`, and the `login` endpoint maps both to
the identical 401 `INVALID_CREDENTIALS` response. -/
theorem login_no_user_enumeration (s : Settings)
    (verify1 verify2 : String → String → Bool)
    (users1 users2 : Users) (rate1 rate2 : RateState) (store1 store2 : TokenStore)
    (now1 now2 : Time) (gen1 gen2 id1 id2 pw1 pw2 : String) (u : UserInDB)
    (h1allow : (check_rate_limit s rate1 now1 id1).isAllowed = true)
    (h1 : users1 id1 = none)
    (h2allow : (check_rate_limit s rate2 now2 id2).isAllowed = true)
    (h2 : users2 id2 = some u)
    (hb : u.bloqueado = false) (ha : u.activo = true)
    (hv : verify2 pw2 u.password_hash = false) :
    (login s verify1 users1 rate1 store1 now1 gen1 id1 pw1).response
      = .error ⟨401, "INVALID_CREDENTIALS", "Credenciales inválidas"⟩
    ∧ (login s verify2 users2 rate2 store2 now2 gen2 id2 pw2).response
      = .error ⟨401, "INVALID_CREDENTIALS", "Credenciales inválidas"⟩
    ∧ (login s verify1 users1 rate1 store1 now1 gen1 id1 pw1).response
      = (login s verify2 users2 rate2 store2 now2 gen2 id2 pw2).response := by
  have e1 : (login s verify1 users1 rate1 store1 now1 gen1 id1 pw1).response
      = .error ⟨401, "INVALID_CREDENTIALS", "Credenciales inválidas"⟩ := by
    cases hcheck : check_rate_limit s rate1 now1 id1 with
    | limited r m st =>
      rw [hcheck] at h1allow
      simp [RateCheck.isAllowed] at h1allow
    | allowed st =>
      simp [login, authenticate_user, hcheck, h1]
  have e2 : (login s verify2 users2 rate2 store2 now2 gen2 id2 pw2).response
      = .error ⟨401, "INVALID_CREDENTIALS", "Credenciales inválidas"⟩ := by
    cases hcheck : check_rate_limit s rate2 now2 id2 with
    | limited r m st =>
      rw [hcheck] at h2allow
      simp [RateCheck.isAllowed] at h2allow
    | allowed st =>
      simp [login, authenticate_user, hcheck, h2, hb, ha, hv]
  exact ⟨e1, e2, e1.trans e2.symm⟩

def c9_empty_users : Users := fun _ => none

def c9_empty_tokens : TokenStore := fun _ => none

/-- Witness for C9: concrete nonexistent-user attempt versus concrete
wrong-password attempt produce the same 401 response. -/
theorem login_no_user_enumeration_witness :
    (login settings (fun _ _ => false) c9_empty_users demo_rate c9_empty_tokens 0
        "g1" "u0000009" "pw").response
      = .error ⟨401, "INVALID_CREDENTIALS", "Credenciales inválidas"⟩
    ∧ (login settings (fun _ _ => false) demo_users demo_rate c9_empty_tokens 0
        "g2" "u0000001" "mala").response
      = .error ⟨401, "INVALID_CREDENTIALS", "Credenciales inválidas"⟩
    ∧ (login settings (fun _ _ => false) c9_empty_users demo_rate c9_empty_tokens 0
        "g1" "u0000009" "pw").response
      = (login settings (fun _ _ => false) demo_users demo_rate c9_empty_tokens 0
        "g2" "u0000001" "mala").response :=
  login_no_user_enumeration settings (fun _ _ => false) (fun _ _ => false)
    c9_empty_users demo_users demo_rate demo_rate c9_empty_tokens c9_empty_tokens 0 0
    "g1" "g2" "u0000009" "u0000001" "pw" "mala" demo_user
    (by decide) rfl (by decide) (by decide) rfl rfl rfl

/-! ## C1 — `validate_refresh_token` validity characterisation -/

/-- C1 (amended): `validate_refresh_token` fails with the 401
`INVALID_CREDENTIALS` error exactly when the store has no record for the
token, or the record is revoked, or the current time is past its expiry,
or the owning user is absent from the user store; in every other case it
returns the owning user's public profile (id, nombre, rol). -/
theorem validate_refresh_token_spec (store : TokenStore) (users : Users)
    (now : Time) (t : String) :
    ((∃ pu, validate_refresh_token store users now t = .ok pu) ↔
      (∃ td, store t = some td ∧ td.revoked = false ∧ ¬ td.expires_at < now ∧
        (users td.user_id).isSome = true))
    ∧ (∀ td u, store t = some td → td.revoked = false → ¬ td.expires_at < now →
        users td.user_id = some u →
        validate_refresh_token store users now t = .ok ⟨u.id, u.nombre, u.rol⟩) := by
  constructor
  · constructor
    · rintro ⟨pu, hpu⟩
      cases hst : store t with
      | none => simp [validate_refresh_token, hst] at hpu
      | some td =>
        by_cases hr : td.revoked
        · simp [validate_refresh_token, hst, hr] at hpu
        · by_cases he : td.expires_at < now
          · simp [validate_refresh_token, hst, hr, he] at hpu
          · cases husr : users td.user_id with
            | none => simp [validate_refresh_token, hst, hr, he, husr] at hpu
            | some ud =>
              exact ⟨td, rfl, by simpa using hr, he, by simp [husr]⟩
    · rintro ⟨td, hst, hr, he, hs⟩
      cases husr : users td.user_id with
      | none => rw [husr] at hs; simp at hs
      | some ud =>
        exact ⟨⟨ud.id, ud.nombre, ud.rol⟩,
          by simp [validate_refresh_token, hst, hr, he, husr]⟩
  · intro td u hst hr he husr
    simp [validate_refresh_token, hst, hr, he, husr]

def c1_tokens : TokenStore :=
  fun t => if t = "tok1" then
    some { user_id := "u1", expires_at := 100, created_at := 0, revoked := false }
  else none

/-- Counterexample to C1 as stated: at time 50, token "tok1" is present in
the store, not revoked, and not past its expiry 100, yet
`validate_refresh_token` fails (with "Usuario no encontrado"), because the
record's owning user is absent from the user store. -/
theorem c1_counterexample :
    c1_tokens "tok1"
      = some { user_id := "u1", expires_at := 100, created_at := 0, revoked := false }
    ∧ ¬ ((100 : Time) < 50)
    ∧ validate_refresh_token c1_tokens (fun _ => none) 50 "tok1"
      = .error ⟨401, "INVALID_CREDENTIALS", "Usuario no encontrado"⟩ :=
  ⟨rfl, by decide, rfl⟩

def c1_users : Users :=
  fun u => if u = "u1" then
    some { id := "u1", nombre := "Ana", rol := "asesor", password_hash := "h"
           ruta := "001", activo := true, bloqueado := false, intentos_fallidos := 0 }
  else none

/-- Witness for the amended C1: a present, unrevoked, unexpired token whose
owner exists resolves to the owner's public profile. -/
theorem validate_refresh_token_spec_witness :
    validate_refresh_token c1_tokens c1_users 50 "tok1"
      = .ok ⟨"u1", "Ana", "asesor"⟩ :=
  (validate_refresh_token_spec c1_tokens c1_users 50 "tok1").2
    { user_id := "u1", expires_at := 100, created_at := 0, revoked := false }
    { id := "u1", nombre := "Ana", rol := "asesor", password_hash := "h"
      ruta := "001", activo := true, bloqueado := false, intentos_fallidos := 0 }
    rfl rfl (by decide) rfl

/-! ## C5 — `check_rate_limit` characterisation -/

theorem check_rate_limit_window_isLimited (s : Settings) (st : RateState) (now : Time)
    (uid : String) :
    (check_rate_limit_window s st now uid).isLimited = true ↔
      s.RATE_LIMIT_PER_MINUTE ≤
        ((st.login_attempts uid).filter
          (fun a => now - (s.RATE_LIMIT_LOCKOUT_MINUTES : Int) * 60 < a)).length := by
  simp only [check_rate_limit_window]
  split_ifs with h <;> simp [RateCheck.isLimited, h]

theorem check_rate_limit_window_breach (s : Settings) (st : RateState) (now : Time)
    (uid : String)
    (h : s.RATE_LIMIT_PER_MINUTE ≤
      ((st.login_attempts uid).filter
        (fun a => now - (s.RATE_LIMIT_LOCKOUT_MINUTES : Int) * 60 < a)).length) :
    (check_rate_limit_window s st now uid).retry
        = some ((s.RATE_LIMIT_LOCKOUT_MINUTES : Int) * 60)
    ∧ (check_rate_limit_window s st now uid).state.locked_accounts uid
        = some (now + (s.RATE_LIMIT_LOCKOUT_MINUTES : Int) * 60) := by
  simp only [check_rate_limit_window]
  rw [if_pos h]
  exact ⟨rfl, by simp [RateCheck.state]⟩

theorem isLimited_false_isAllowed (c : RateCheck) (h : c.isLimited = false) :
    c.isAllowed = true := by
  cases c <;> simp_all [RateCheck.isLimited, RateCheck.isAllowed]

/-- C5: with rate limiting enabled and the lazy-eviction invariant (once a
lock has expired, every recorded failure for that id is already outside
the trailing window), `check_rate_limit` fails exactly when the id holds
a lock whose expiry is in the future or the count of failures inside the
trailing lockout window reaches the threshold; a future lock fails with
`retryAfter` the remaining seconds; a threshold breach fails with
`retryAfter` the lockout duration and installs a lock expiring at
`now + lockout duration`; otherwise the call is allowed.  The configured
defaults are threshold 5 and lockout 15 minutes. -/
theorem check_rate_limit_spec (s : Settings) (st : RateState) (now : Time)
    (user_id : String)
    (hen : s.RATE_LIMIT_ENABLED = true)
    (hinv : ∀ l, st.locked_accounts user_id = some l → l ≤ now →
      (st.login_attempts user_id).filter
        (fun a => now - (s.RATE_LIMIT_LOCKOUT_MINUTES : Int) * 60 < a) = []) :
    ((check_rate_limit s st now user_id).isLimited = true ↔
      ((∃ l, st.locked_accounts user_id = some l ∧ now < l) ∨
        s.RATE_LIMIT_PER_MINUTE ≤
          ((st.login_attempts user_id).filter
            (fun a => now - (s.RATE_LIMIT_LOCKOUT_MINUTES : Int) * 60 < a)).length))
    ∧ (∀ l, st.locked_accounts user_id = some l → now < l →
        (check_rate_limit s st now user_id).retry = some (l - now))
    ∧ ((¬ ∃ l, st.locked_accounts user_id = some l ∧ now < l) →
        s.RATE_LIMIT_PER_MINUTE ≤
          ((st.login_attempts user_id).filter
            (fun a => now - (s.RATE_LIMIT_LOCKOUT_MINUTES : Int) * 60 < a)).length →
        (check_rate_limit s st now user_id).retry
            = some ((s.RATE_LIMIT_LOCKOUT_MINUTES : Int) * 60)
        ∧ (check_rate_limit s st now user_id).state.locked_accounts user_id
            = some (now + (s.RATE_LIMIT_LOCKOUT_MINUTES : Int) * 60))
    ∧ ((check_rate_limit s st now user_id).isLimited = false →
        (check_rate_limit s st now user_id).isAllowed = true)
    ∧ settings.RATE_LIMIT_PER_MINUTE = 5 ∧ settings.RATE_LIMIT_LOCKOUT_MINUTES = 15 := by
  rcases Option.eq_none_or_eq_some (st.locked_accounts user_id) with hl | ⟨l, hl⟩
  · have heq : check_rate_limit s st now user_id = check_rate_limit_window s st now user_id := by
      simp [check_rate_limit, hen, hl]
    refine ⟨?_, ?_, ?_, fun h => isLimited_false_isAllowed _ h, rfl, rfl⟩
    · rw [heq, check_rate_limit_window_isLimited]
      constructor
      · exact Or.inr
      · rintro (⟨l, hl2, _⟩ | h)
        · rw [hl] at hl2; cases hl2
        · exact h
    · intro l hl2 _
      rw [hl] at hl2; cases hl2
    · intro _ h
      rw [heq]
      exact check_rate_limit_window_breach s st now user_id h
  · by_cases hfut : now < l
    · have heq : check_rate_limit s st now user_id
          = .limited (l - now)
            ("Cuenta bloqueada temporalmente. Intente nuevamente en "
              ++ toString ((l - now).fdiv 60) ++ " minutos") st := by
        simp [check_rate_limit, hen, hl, hfut]
      refine ⟨?_, ?_, ?_, fun h => isLimited_false_isAllowed _ h, rfl, rfl⟩
      · rw [heq]
        exact iff_of_true rfl (Or.inl ⟨l, hl, hfut⟩)
      · intro l2 hl2 _
        rw [hl] at hl2; injection hl2 with h2; subst h2
        rw [heq]; rfl
      · intro hne _
        exact absurd ⟨l, hl, hfut⟩ hne
    · have hnle : l ≤ now := le_of_not_lt hfut
      have hattempts : (st.login_attempts user_id).filter
          (fun a => now - (s.RATE_LIMIT_LOCKOUT_MINUTES : Int) * 60 < a) = [] :=
        hinv l hl hnle
      have heq : check_rate_limit s st now user_id
          = check_rate_limit_window s
            { login_attempts := fun u => if u = user_id then [] else st.login_attempts u
              locked_accounts := fun u => if u = user_id then none else st.locked_accounts u }
            now user_id := by
        simp [check_rate_limit, hen, hl, hfut]
      refine ⟨?_, ?_, ?_, fun h => isLimited_false_isAllowed _ h, rfl, rfl⟩
      · rw [heq, check_rate_limit_window_isLimited]
        constructor
        · intro h
          refine Or.inr ?_
          rw [hattempts]
          simpa using h
        · rintro (⟨l2, hl2, hf2⟩ | h)
          · rw [hl] at hl2; injection hl2 with h2; subst h2
            exact absurd hf2 hfut
          · rw [hattempts] at h
            simpa using h
      · intro l2 hl2 hf2
        rw [hl] at hl2; injection hl2 with h2; subst h2
        exact absurd hf2 hfut
      · intro _ h
        rw [heq]
        refine check_rate_limit_window_breach s _ now user_id ?_
        rw [hattempts] at h
        simpa using h

def c5_rate : RateState :=
  { login_attempts := fun u => if u = "u0000001" then [1, 2, 3, 4, 5] else []
    locked_accounts := fun _ => none }

/-- Witness for C5: with the default settings, five failures inside the
window make the sixth check fail with `retryAfter` 900 seconds and
install a lock expiring 15 minutes later. -/
theorem check_rate_limit_spec_witness :
    (check_rate_limit settings c5_rate 10 "u0000001").isLimited = true
    ∧ (check_rate_limit settings c5_rate 10 "u0000001").retry = some 900
    ∧ (check_rate_limit settings c5_rate 10 "u0000001").state.locked_accounts "u0000001"
        = some 910 := by
  have hinv : ∀ l, c5_rate.locked_accounts "u0000001" = some l → l ≤ 10 →
      (c5_rate.login_attempts "u0000001").filter
        (fun a => 10 - (settings.RATE_LIMIT_LOCKOUT_MINUTES : Int) * 60 < a) = [] := by
    intro l hl
    exact absurd hl (by simp [c5_rate])
  have h := check_rate_limit_spec settings c5_rate 10 "u0000001" rfl hinv
  have hcount : settings.RATE_LIMIT_PER_MINUTE ≤
      ((c5_rate.login_attempts "u0000001").filter
        (fun a => 10 - (settings.RATE_LIMIT_LOCKOUT_MINUTES : Int) * 60 < a)).length := by
    decide
  have hnolock : ¬ ∃ l, c5_rate.locked_accounts "u0000001" = some l ∧ (10 : Time) < l := by
    rintro ⟨l, hl, _⟩
    exact absurd hl (by simp [c5_rate])
  obtain ⟨hretry, hlock⟩ := h.2.2.1 hnolock hcount
  exact ⟨h.1.mpr (Or.inr hcount), by simpa using hretry, by simpa using hlock⟩

/-! ## C7 — recommendation rule order and exclusivity -/

/-- C7: `generate_recomendaciones` appends rules in the fixed source order.
(1) When the shop-program id is set and the sales drop qualifies, the
output starts with the program recommendation followed by the sales-drop
recommendation. (2) When the target-met flag is 1 and the drop does not
qualify, exactly one "Mantener volumen actual" recommendation is
produced. (3) The sales-drop and maintain-volume rules are mutually
exclusive. (4) When every rule fires, the output is exactly the rules in
order 1, 2, 4 (MILLER, INDIO, TECATE, XX), 5, 6. -/
theorem generate_recomendaciones_rule_order :
    (∀ (ids : Nat → String) (cliente : Cliente) (row : Row),
      truthyStr row.IDSHOP = true →
      0 < row.CERVEZA_SANT.getD 0 →
      row.CERVEZA_SACT.getD 0 < row.CERVEZA_SANT.getD 0 * (4 / 5) →
      ((generate_recomendaciones ids cliente row).map recSig).take 2
        = [("informacion", "alta", "Programa HEI disponible"),
           ("venta", "alta",
            "Recuperar ventas ("
              ++ toString (pyInt ((row.CERVEZA_SANT.getD 0 - row.CERVEZA_SACT.getD 0)
                  / row.CERVEZA_SANT.getD 0 * 100))
              ++ "% de caída)")])
    ∧ (∀ (ids : Nat → String) (cliente : Cliente) (row : Row),
      row.CTECUMPLIDO = some 1 →
      ¬(0 < row.CERVEZA_SANT.getD 0 ∧
          row.CERVEZA_SACT.getD 0 < row.CERVEZA_SANT.getD 0 * (4 / 5)) →
      ((generate_recomendaciones ids cliente row).map recSig).count
          ("venta", "media", "Mantener volumen actual") = 1)
    ∧ (∀ (ids : Nat → String) (cliente : Cliente) (row : Row),
      ((generate_recomendaciones ids cliente row).map recSig).countP
          (fun x => x.1 == "venta" && x.2.1 == "alta") = 0
      ∨ ((generate_recomendaciones ids cliente row).map recSig).count
          ("venta", "media", "Mantener volumen actual") = 0)
    ∧ (∀ (ids : Nat → String) (cliente : Cliente) (row : Row),
      truthyStr row.IDSHOP = true →
      0 < row.CERVEZA_SANT.getD 0 →
      row.CERVEZA_SACT.getD 0 < row.CERVEZA_SANT.getD 0 * (4 / 5) →
      truthyRat row.MILLER = true → 0 < row.MILLER.getD 0 →
      truthyRat row.INDIO = true → 0 < row.INDIO.getD 0 →
      truthyRat row.TECATE = true → 0 < row.TECATE.getD 0 →
      truthyRat row.XX = true → 0 < row.XX.getD 0 →
      truthyStr row.DESCLP = true →
      truthyInt row.ENFRIADORES = true →
      (generate_recomendaciones ids cliente row).map recSig
        = [("informacion", "alta", "Programa HEI disponible"),
           ("venta", "alta",
            "Recuperar ventas ("
              ++ toString (pyInt ((row.CERVEZA_SANT.getD 0 - row.CERVEZA_SACT.getD 0)
                  / row.CERVEZA_SANT.getD 0 * 100))
              ++ "% de caída)"),
           ("venta", "media", "Ampliar portafolio Miller"),
           ("venta", "media", "Incrementar Indio"),
           ("venta", "media", "Reforzar Tecate"),
           ("venta", "media", "Promover XX Lager"),
           ("merchandising", "alta", "Promoción Lona activa"),
           ("merchandising", "media", "Seguimiento de enfriadores")]) := by
  refine ⟨?_, ?_, ?_, ?_⟩
  · intro ids cliente row hshop h1 h2
    have hcond : 0 < row.CERVEZA_SANT.getD 0 ∧
        row.CERVEZA_SACT.getD 0 < row.CERVEZA_SANT.getD 0 * (4 / 5) := ⟨h1, h2⟩
    rw [generate_recomendaciones, assign_ids_map_recSig]
    simp only [generate_core]
    rw [if_pos hshop, if_pos hcond]
    simp [recSig, heiRec, dropRec]
  · intro ids cliente row hct hnd
    rw [generate_recomendaciones, assign_ids_map_recSig]
    simp only [generate_core]
    rw [if_neg hnd, if_pos hct]
    simp [map_ite_singleton, count_ite_singleton_ne, List.count_append,
      recSig, heiRec, maintainRec, productRec, promoRec, coolerRec, List.count_cons]
  · intro ids cliente row
    by_cases hd : 0 < row.CERVEZA_SANT.getD 0 ∧
        row.CERVEZA_SACT.getD 0 < row.CERVEZA_SANT.getD 0 * (4 / 5)
    · right
      rw [generate_recomendaciones, assign_ids_map_recSig]
      simp only [generate_core]
      rw [if_pos hd]
      simp [map_ite_singleton, count_ite_singleton_ne, List.count_append,
        recSig, heiRec, dropRec, productRec, promoRec, coolerRec, List.count_cons]
    · left
      rw [generate_recomendaciones, assign_ids_map_recSig]
      simp only [generate_core]
      rw [if_neg hd]
      simp [map_ite_singleton, countP_ite_singleton, List.countP_append,
        recSig, heiRec, maintainRec, productRec, promoRec, coolerRec, List.countP_cons]
  · intro ids cliente row hshop h1 h2 hm1 hm2 hi1 hi2 ht1 ht2 hx1 hx2 hp hen
    have hcond : 0 < row.CERVEZA_SANT.getD 0 ∧
        row.CERVEZA_SACT.getD 0 < row.CERVEZA_SANT.getD 0 * (4 / 5) := ⟨h1, h2⟩
    have hm : truthyRat row.MILLER = true ∧ 0 < row.MILLER.getD 0 := ⟨hm1, hm2⟩
    have hi : truthyRat row.INDIO = true ∧ 0 < row.INDIO.getD 0 := ⟨hi1, hi2⟩
    have ht : truthyRat row.TECATE = true ∧ 0 < row.TECATE.getD 0 := ⟨ht1, ht2⟩
    have hx : truthyRat row.XX = true ∧ 0 < row.XX.getD 0 := ⟨hx1, hx2⟩
    rw [generate_recomendaciones, assign_ids_map_recSig]
    simp only [generate_core]
    rw [if_pos hshop, if_pos hcond, if_pos hm, if_pos hi, if_pos ht, if_pos hx,
      if_pos hp, if_pos hen]
    simp [recSig, heiRec, dropRec, productRec, promoRec, coolerRec]

def c7_row_all : Row :=
  { CLIENTE_ID := some "C3", NOMBRE_CLIENTE := some "Tienda Tres", GECS := some "PLATA"
    CTECUMPLIDO := some 0, IDSHOP := some "S77", CERVEZA_SANT := some 10
    CERVEZA_SACT := some 1, MILLER := some 2, INDIO := some 3, TECATE := some 4
    XX := some 5, DESCLP := some "LONA", ENFRIADORES := some 1 }

def c7_row_meta : Row :=
  { CLIENTE_ID := some "C4", NOMBRE_CLIENTE := some "Tienda Cuatro", GECS := some "ORO"
    CTECUMPLIDO := some 1, IDSHOP := none, CERVEZA_SANT := none, CERVEZA_SACT := none
    MILLER := none, INDIO := none, TECATE := none, XX := none, DESCLP := none
    ENFRIADORES := none }

/-- Witness for C7: a row firing every rule puts the program
recommendation first and the sales-drop recommendation second, and a
target-met row without a qualifying drop yields exactly one
maintain-volume recommendation. -/
theorem generate_recomendaciones_rule_order_witness :
    ((generate_recomendaciones (fun _ => "") (map_to_cliente c7_row_all) c7_row_all).map
        recSig).take 2
      = [("informacion", "alta", "Programa HEI disponible"),
         ("venta", "alta",
          "Recuperar ventas ("
            ++ toString (pyInt ((c7_row_all.CERVEZA_SANT.getD 0 - c7_row_all.CERVEZA_SACT.getD 0)
                / c7_row_all.CERVEZA_SANT.getD 0 * 100))
            ++ "% de caída)")]
    ∧ ((generate_recomendaciones (fun _ => "") (map_to_cliente c7_row_meta) c7_row_meta).map
        recSig).count ("venta", "media", "Mantener volumen actual") = 1 :=
  ⟨generate_recomendaciones_rule_order.1 (fun _ => "") (map_to_cliente c7_row_all) c7_row_all
      (by decide) (by norm_num [c7_row_all]) (by norm_num [c7_row_all]),
   generate_recomendaciones_rule_order.2.1 (fun _ => "") (map_to_cliente c7_row_meta) c7_row_meta
      rfl (by norm_num [c7_row_meta])⟩

/-! ## C2 and C10 — what a refresh call does to the token store -/

def c2_user : UserInDB :=
  { id := "u1", nombre := "Ana", rol := "asesor", password_hash := "h"
    ruta := "001", activo := true, bloqueado := false, intentos_fallidos := 0 }

def c2_users : Users := fun u => if u = "u1" then some c2_user else none

def c2_store : TokenStore :=
  fun t => if t = "tok1" then
    some { user_id := "u1", expires_at := 1000000, created_at := 0, revoked := false }
  else none

/-- Counterexample to C2 as stated: a successful refresh of "tok1" with the
fresh draw "newtok" persists a second refresh-token credential (owner
"u1", full-length expiry 50 + 7·86400) to the store, so the call issues a
credential other than the new access token. -/
theorem c2_counterexample :
    c2_store "newtok" = none
    ∧ (refresh_token settings c2_store c2_users 50 "newtok" "tok1").toOption.map
        (fun p => (p.2 "newtok").map (fun r => r.user_id)) = some (some "u1")
    ∧ (refresh_token settings c2_store c2_users 50 "newtok" "tok1").toOption.map
        (fun p => (p.2 "newtok").map (fun r => r.expires_at)) = some (some (50 + 7 * 86400)) :=
  ⟨rfl, rfl, rfl⟩

/-- C2 (amended): for a valid presented refresh token, the refresh endpoint
responds with only a new access token, and the presented token's store
record stays untouched (neither revoked nor replaced); however the call
additionally generates and persists one fresh refresh-token record, which
is never returned to the caller. -/
theorem refresh_leaves_presented_token (s : Settings) (store : TokenStore) (users : Users)
    (now : Time) (gen t : String) (td : RefreshTokenRecord) (u : UserInDB)
    (hrec : store t = some td) (hrev : td.revoked = false) (hexp : ¬ td.expires_at < now)
    (hu : users td.user_id = some u) (hid : u.id = td.user_id)
    (hfresh : store gen = none) :
    ∃ store2, refresh_token s store users now gen t
        = .ok ({ token := create_access_token s now u.id u.rol u.ruta
                 expiresIn := (s.ACCESS_TOKEN_EXPIRE_MINUTES : Int) * 60 }, store2)
      ∧ store2 t = store t
      ∧ (store2 gen).isSome = true := by
  have hval : validate_refresh_token store users now t = .ok ⟨u.id, u.nombre, u.rol⟩ := by
    simp [validate_refresh_token, hrec, hrev, hexp, hu]
  have husr2 : users u.id = some u := by rw [hid]; exact hu
  have hne : t ≠ gen := by
    intro h
    rw [h, hfresh] at hrec
    cases hrec
  refine ⟨save_refresh_token store gen u.id (get_refresh_token_expiration s now) now, ?_, ?_, ?_⟩
  · simp [refresh_token, hval, husr2, create_user_tokens]
  · simp [save_refresh_token, hne]
  · simp [save_refresh_token]

/-- Witness for the amended C2 on concrete stores. -/
theorem refresh_leaves_presented_token_witness :
    ∃ store2, refresh_token settings c2_store c2_users 50 "newtok" "tok1"
        = .ok ({ token := create_access_token settings 50 "u1" "asesor" "001"
                 expiresIn := (settings.ACCESS_TOKEN_EXPIRE_MINUTES : Int) * 60 }, store2)
      ∧ store2 "tok1" = c2_store "tok1"
      ∧ (store2 "newtok").isSome = true :=
  refresh_leaves_presented_token settings c2_store c2_users 50 "newtok" "tok1"
    { user_id := "u1", expires_at := 1000000, created_at := 0, revoked := false }
    c2_user rfl rfl (by decide) rfl rfl rfl

/-- C10: a refresh call, besides answering with only a new access token,
draws a fresh random refresh token, persists it for the same user with a
new full-length expiry, and discards it: the store gains exactly that one
record, every other key (the presented token included) is untouched, and
the response is the same whatever the draw was — the new refresh token is
never revealed. -/
theorem refresh_persists_fresh_token (s : Settings) (store : TokenStore) (users : Users)
    (now : Time) (gen t : String) (td : RefreshTokenRecord) (u : UserInDB)
    (hrec : store t = some td) (hrev : td.revoked = false) (hexp : ¬ td.expires_at < now)
    (hu : users td.user_id = some u) (hid : u.id = td.user_id)
    (hfresh : store gen = none) :
    ∃ store2, refresh_token s store users now gen t
        = .ok ({ token := create_access_token s now u.id u.rol u.ruta
                 expiresIn := (s.ACCESS_TOKEN_EXPIRE_MINUTES : Int) * 60 }, store2)
      ∧ store2 gen = some { user_id := u.id
                            expires_at := now + (s.REFRESH_TOKEN_EXPIRE_DAYS : Int) * 86400
                            created_at := now, revoked := false }
      ∧ (∀ x, x ≠ gen → store2 x = store x)
      ∧ store2 t = store t
      ∧ (∀ gen2, (refresh_token s store users now gen2 t).toOption.map (fun p => p.1)
          = some { token := create_access_token s now u.id u.rol u.ruta
                   expiresIn := (s.ACCESS_TOKEN_EXPIRE_MINUTES : Int) * 60 }) := by
  have hval : validate_refresh_token store users now t = .ok ⟨u.id, u.nombre, u.rol⟩ := by
    simp [validate_refresh_token, hrec, hrev, hexp, hu]
  have husr2 : users u.id = some u := by rw [hid]; exact hu
  have hne : t ≠ gen := by
    intro h
    rw [h, hfresh] at hrec
    cases hrec
  refine ⟨save_refresh_token store gen u.id (get_refresh_token_expiration s now) now,
    ?_, ?_, ?_, ?_, ?_⟩
  · simp [refresh_token, hval, husr2, create_user_tokens]
  · simp [save_refresh_token, get_refresh_token_expiration]
  · intro x hx
    simp [save_refresh_token, hx]
  · simp [save_refresh_token, hne]
  · intro gen2
    simp [refresh_token, hval, husr2, create_user_tokens]
    exact ⟨_, rfl⟩

/-- Witness for C10 on concrete stores. -/
theorem refresh_persists_fresh_token_witness :
    ∃ store2, refresh_token settings c2_store c2_users 50 "newtok" "tok1"
        = .ok ({ token := create_access_token settings 50 "u1" "asesor" "001"
                 expiresIn := (settings.ACCESS_TOKEN_EXPIRE_MINUTES : Int) * 60 }, store2)
      ∧ store2 "newtok" = some { user_id := "u1"
                                 expires_at := 50 + (settings.REFRESH_TOKEN_EXPIRE_DAYS : Int) * 86400
                                 created_at := 50, revoked := false }
      ∧ (∀ x, x ≠ "newtok" → store2 x = c2_store x)
      ∧ store2 "tok1" = c2_store "tok1"
      ∧ (∀ gen2, (refresh_token settings c2_store c2_users 50 gen2 "tok1").toOption.map
            (fun p => p.1)
          = some { token := create_access_token settings 50 "u1" "asesor" "001"
                   expiresIn := (settings.ACCESS_TOKEN_EXPIRE_MINUTES : Int) * 60 }) :=
  refresh_persists_fresh_token settings c2_store c2_users 50 "newtok" "tok1"
    { user_id := "u1", expires_at := 1000000, created_at := 0, revoked := false }
    c2_user rfl rfl (by decide) rfl rfl rfl

end WebPV
